import Mathlib

/-
Verification of the dhcp_parser option-decoding core
(src/options/parse.rs and src/options/option82.rs).

Embedding conventions:
  * A byte buffer is a List Nat (each element intended < 256; theorems that
    need the bound state it as a hypothesis, concrete inputs satisfy it).
  * A nom parser of result type a is embedded as
    P a := List Nat -> Option (List Nat x a),
    where some (rest, v) renders IResult::Done(rest, v) and none renders
    both IResult::Error and IResult::Incomplete.  Collapsing Error and
    Incomplete into none is observationally faithful here: the two engines
    only ever test whether the result is Done, and inside alt! every
    alternative begins with tag!([t]) for pairwise distinct literal tags,
    so at most one alternative can return Incomplete and it is exactly the
    alternative that alt! would have committed to.
  * Machine integers are Nat (u8/u16/u32) and Int (i32, with the two's
    complement reinterpretation written out).  usize arithmetic such as
    2 + (unparsed[1] as usize) cannot overflow and is plain Nat arithmetic.
  * Rust slices &u[k..] are List.drop k u; u[i] at a guarded index is
    List.getD u i 0 (the guard makes the default irrelevant).
-/

/-- Modelled from the spec: the crate-level error type of the Result alias
imported by both source files lives outside src/ (lib.rs is absent).  The
spec states no error is ever surfaced, so only its existence matters; it is
rendered as a one-constructor placeholder type. -/
inductive CrateError
| err
deriving DecidableEq

namespace Nom

/-- A nom byte parser: input to optionally (rest, value). -/
abbrev P (α : Type) : Type := List Nat → Option (List Nat × α)

def ppure {α : Type} (a : α) : P α := fun i => some (i, a)

def pfail {α : Type} : P α := fun _ => none

def pbind {α β : Type} (p : P α) (f : α → P β) : P β := fun i =>
  match p i with
  | some (i1, a) => f a i1
  | none => none

/-- nom alt!: first Done wins (see the header note on Error/Incomplete). -/
def palt {α : Type} (p q : P α) : P α := fun i =>
  match p i with
  | some r => some r
  | none => q i

/-- nom tag!([t]): match and consume one literal byte. -/
def tagP (t : Nat) : P Unit := fun i =>
  match i with
  | b :: r => if b = t then some (r, ()) else none
  | [] => none

def be_u8 : P Nat := fun i =>
  match i with
  | b :: r => some (r, b)
  | [] => none

def be_u16 : P Nat := fun i =>
  match i with
  | a :: b :: r => some (r, a * 256 + b)
  | _ => none

def be_u32 : P Nat := fun i =>
  match i with
  | a :: b :: c :: d :: r => some (r, ((a * 256 + b) * 256 + c) * 256 + d)
  | _ => none

/-- nom be_i32: the big-endian 32-bit value reinterpreted as two's
complement i32. -/
def be_i32 : P Int := fun i =>
  match be_u32 i with
  | some (r, v) =>
      some (r, if v < 2147483648 then (v : Int) else (v : Int) - 4294967296)
  | none => none

/-- nom sized_buffer: one length byte n, then the next n bytes. -/
def sized_buffer : P (List Nat) := fun i =>
  match i with
  | n :: r => if n ≤ r.length then some (r.drop n, r.take n) else none
  | [] => none

/-- nom count!: apply g exactly n times, collecting results in order. -/
def pcount {α : Type} (g : P α) : Nat → P (List α)
  | 0 => ppure []
  | n + 1 => pbind g fun a => pbind (pcount g n) fun as => ppure (a :: as)

/-- nom length_count!(f, g): parse a count with f, then g that many times. -/
def length_count {α : Type} (f : P Nat) (g : P α) : P (List α) :=
  pbind f fun n => pcount g n

/-- nom map_res!: run p, then a fallible conversion; Err becomes a parse
failure. -/
def map_res {α β : Type} {ε : Type} (p : P α) (f : α → Except ε β) : P β :=
  fun i =>
  match p i with
  | some (i1, a) =>
      match f a with
      | Except.ok b => some (i1, b)
      | Except.error _ => none
  | none => none

/-- nom map_opt!: run p, then a partial conversion; none becomes a parse
failure. -/
def map_opt {α β : Type} (p : P α) (f : α → Option β) : P β := fun i =>
  match p i with
  | some (i1, a) =>
      match f a with
      | some b => some (i1, b)
      | none => none
  | none => none

/-- p never grows the remaining input. -/
def Mono {α : Type} (p : P α) : Prop :=
  ∀ i i1 a, p i = some (i1, a) → i1.length ≤ i.length

/-- p consumes at least one byte whenever it is Done. -/
def Strict {α : Type} (p : P α) : Prop :=
  ∀ i i1 a, p i = some (i1, a) → i1.length < i.length

theorem ppure_mono {α : Type} (a : α) : Mono (ppure a) := by
  intro i i1 b h
  simp [ppure] at h
  simp [h.1]

theorem pfail_mono {α : Type} : Mono (pfail : P α) := by
  intro i i1 a h
  simp [pfail] at h

theorem tagP_strict (t : Nat) : Strict (tagP t) := by
  intro i i1 a h
  match i with
  | [] => simp [tagP] at h
  | b :: r =>
      simp [tagP] at h
      simp [← h.2]

theorem be_u8_mono : Mono be_u8 := by
  intro i i1 a h
  match i with
  | [] => simp [be_u8] at h
  | b :: r =>
      simp [be_u8] at h
      simp [h.1]

theorem be_u16_mono : Mono be_u16 := by
  intro i i1 a h
  match i with
  | [] => simp [be_u16] at h
  | [_] => simp [be_u16] at h
  | a :: b :: r =>
      simp [be_u16] at h
      simp [h.1]
      omega

theorem be_u32_mono : Mono be_u32 := by
  intro i i1 a h
  match i with
  | [] => simp [be_u32] at h
  | [_] => simp [be_u32] at h
  | [_, _] => simp [be_u32] at h
  | [_, _, _] => simp [be_u32] at h
  | a :: b :: c :: d :: r =>
      simp [be_u32] at h
      simp [h.1]
      omega

theorem be_i32_mono : Mono be_i32 := by
  intro i i1 a h
  unfold be_i32 at h
  cases hu : be_u32 i with
  | none => rw [hu] at h; simp at h
  | some r =>
      rw [hu] at h
      obtain ⟨i2, v⟩ := r
      simp at h
      exact h.1 ▸ be_u32_mono i i2 v hu

theorem sized_buffer_mono : Mono sized_buffer := by
  intro i i1 a h
  match i with
  | [] => simp [sized_buffer] at h
  | n :: r =>
      simp [sized_buffer] at h
      rw [← h.2.1]
      simp
      omega

theorem pbind_mono {α β : Type} {p : P α} {f : α → P β}
    (hp : Mono p) (hf : ∀ a, Mono (f a)) : Mono (pbind p f) := by
  intro i i1 b h
  unfold pbind at h
  cases hpi : p i with
  | none => rw [hpi] at h; simp at h
  | some r =>
      rw [hpi] at h
      obtain ⟨i2, a⟩ := r
      exact le_trans (hf a i2 i1 b h) (hp i i2 a hpi)

theorem pbind_strict {α β : Type} {p : P α} {f : α → P β}
    (hp : Strict p) (hf : ∀ a, Mono (f a)) : Strict (pbind p f) := by
  intro i i1 b h
  unfold pbind at h
  cases hpi : p i with
  | none => rw [hpi] at h; simp at h
  | some r =>
      rw [hpi] at h
      obtain ⟨i2, a⟩ := r
      exact lt_of_le_of_lt (hf a i2 i1 b h) (hp i i2 a hpi)

theorem palt_strict {α : Type} {p q : P α}
    (hp : Strict p) (hq : Strict q) : Strict (palt p q) := by
  intro i i1 a h
  unfold palt at h
  cases hpi : p i with
  | none => rw [hpi] at h; exact hq i i1 a h
  | some r =>
      rw [hpi] at h
      obtain ⟨i2, b⟩ := r
      simp at h
      exact h.1 ▸ hp i i2 b hpi

theorem pcount_mono {α : Type} {g : P α} (hg : Mono g) :
    ∀ n, Mono (pcount g n) := by
  intro n
  induction n with
  | zero => exact ppure_mono []
  | succ m ih =>
      exact pbind_mono hg fun a => pbind_mono ih fun as => ppure_mono _

theorem length_count_mono {α : Type} {f : P Nat} {g : P α}
    (hf : Mono f) (hg : Mono g) : Mono (length_count f g) :=
  pbind_mono hf fun n => pcount_mono hg n

theorem map_res_mono {α β ε : Type} {p : P α} {f : α → Except ε β}
    (hp : Mono p) : Mono (map_res p f) := by
  intro i i1 b h
  unfold map_res at h
  cases hpi : p i with
  | none => rw [hpi] at h; simp at h
  | some r =>
      rw [hpi] at h
      obtain ⟨i2, a⟩ := r
      dsimp only at h
      cases hfa : f a with
      | ok c => rw [hfa] at h; simp at h; exact h.1 ▸ hp i i2 a hpi
      | error e => rw [hfa] at h; simp at h

theorem map_opt_mono {α β : Type} {p : P α} {f : α → Option β}
    (hp : Mono p) : Mono (map_opt p f) := by
  intro i i1 b h
  unfold map_opt at h
  cases hpi : p i with
  | none => rw [hpi] at h; simp at h
  | some r =>
      rw [hpi] at h
      obtain ⟨i2, a⟩ := r
      dsimp only at h
      cases hfa : f a with
      | some c => rw [hfa] at h; simp at h; exact h.1 ▸ hp i i2 a hpi
      | none => rw [hfa] at h; simp at h

/-- One Done branch of alt! determines the whole alternation. -/
theorem palt_some {α : Type} {p : P α} (q : P α) {i : List Nat}
    {r : List Nat × α} (h : p i = some r) : palt p q i = some r := by
  simp [palt, h]

/-- A failing branch of alt! passes control to the rest. -/
theorem palt_none {α : Type} {p : P α} (q : P α) {i : List Nat}
    (h : p i = none) : palt p q i = q i := by
  simp [palt, h]

end Nom

/-- Is b a UTF-8 continuation byte (0x80..=0xBF)? -/
def isCont (b : Nat) : Bool := 128 ≤ b && b < 192

/-- Exact validity check of Rust str::from_utf8 (RFC 3629 well-formedness:
no overlongs, no surrogates, nothing above U+10FFFF). -/
def validUtf8 : List Nat → Bool
  | [] => true
  | b :: rest =>
    if b < 128 then validUtf8 rest
    else if b < 194 then false
    else if b < 224 then
      match rest with
      | c :: r => isCont c && validUtf8 r
      | [] => false
    else if b < 240 then
      match rest with
      | c :: d :: r =>
          (if b = 224 then 160 ≤ c && c < 192
           else if b = 237 then 128 ≤ c && c < 160
           else isCont c) && isCont d && validUtf8 r
      | _ => false
    else if b < 245 then
      match rest with
      | c :: d :: e :: r =>
          (if b = 240 then 144 ≤ c && c < 192
           else if b = 244 then 128 ≤ c && c < 144
           else isCont c) && isCont d && isCont e && validUtf8 r
      | _ => false
    else false

/-- str::from_utf8 as the fallible conversion fed to map_res!; the decoded
string is represented by its (validated) byte sequence. -/
def from_utf8 (s : List Nat) : Except CrateError (List Nat) :=
  if validUtf8 s then Except.ok s else Except.error CrateError.err


open Nom

/-- std::net::IpAddr restricted to the V4 constructor the code uses;
Ipv4Addr::from(u32) is the identity on the 32-bit value. -/
abbrev IpAddr : Type := Nat

/-- Modelled from the spec: the DhcpMessageTypes enum of options.rs (a file
outside src/); the spec fixes Discover=1, Offer=2, Request=3, Decline=4,
Ack=5, Nak=6, Release=7. -/
inductive DhcpMessageTypes
| Discover
| Offer
| Request
| Decline
| Ack
| Nak
| Release
deriving DecidableEq

/-- Modelled from the spec: FromPrimitive::from_u8 for DhcpMessageTypes,
per the spec's enum(Discover=1,...,Release=7) table. -/
def messageTypeFromU8 : Nat → Option DhcpMessageTypes
  | 1 => some DhcpMessageTypes.Discover
  | 2 => some DhcpMessageTypes.Offer
  | 3 => some DhcpMessageTypes.Request
  | 4 => some DhcpMessageTypes.Decline
  | 5 => some DhcpMessageTypes.Ack
  | 6 => some DhcpMessageTypes.Nak
  | 7 => some DhcpMessageTypes.Release
  | _ => none

/-- Modelled from the spec: the NetBIOS node type enum of options.rs (outside
src/); the spec only calls it a fixed byte-to-enum table, rendered here with
the RFC 2132 values B=1, P=2, M=4, H=8.  No claim depends on the exact
domain of this table. -/
inductive NetBiosNodeTypes
| BNode
| PNode
| MNode
| HNode
deriving DecidableEq

/-- Modelled from the spec: FromPrimitive::from_u8 for the node-type table
(see NetBiosNodeTypes). -/
def nodeTypeFromU8 : Nat → Option NetBiosNodeTypes
  | 1 => some NetBiosNodeTypes.BNode
  | 2 => some NetBiosNodeTypes.PNode
  | 4 => some NetBiosNodeTypes.MNode
  | 8 => some NetBiosNodeTypes.HNode
  | _ => none

/-- Modelled from the spec: the option-overload mode enum of options.rs
(outside src/), rendered with the RFC 2132 values 1, 2, 3.  No claim
depends on the exact domain of this table. -/
inductive OptionOverloads
| File
| Sname
| Both
deriving DecidableEq

/-- Modelled from the spec: FromPrimitive::from_u8 for the option-overload
table (see OptionOverloads). -/
def overloadFromU8 : Nat → Option OptionOverloads
  | 1 => some OptionOverloads.File
  | 2 => some OptionOverloads.Sname
  | 3 => some OptionOverloads.Both
  | _ => none

namespace Option82

/-- The sub-option catalog of option82.rs (String payloads are carried as
their validated UTF-8 byte sequences). -/
inductive RelayAgentInformationSubOption
| AgentCircuitID (data : List Nat)
| AgentRemoteID (data : List Nat)
| DOCSISDeviceClass (deviceClass : Int)
| LinkSelection (addr : IpAddr)
| SubscriberID (s : List Nat)
| RADIUSattributes (data : List Nat)
| Authentication (data : List Nat)
| VendorSpecificInformation (data : List Nat)
| RelayAgentFlags (flag : Nat)
| ServerIdentifierOverride (identifier : Int)
| DHCPv4VirtualSubnetSelection (data : List Nat)
| DHCPv4VirtualSubnetSelectionControl (data : List Nat)
deriving DecidableEq

end Option82

namespace Options

/-- The top-level option catalog used by parse.rs (one variant per decoder;
String payloads are carried as their validated UTF-8 byte sequences).  The
enum itself lives in options.rs outside src/; variant names and payload
shapes are exactly those constructed in parse.rs. -/
inductive DhcpOption
| Pad
| End
| SubnetMask (addr : IpAddr)
| TimeOffset (time : Int)
| Router (addrs : List IpAddr)
| TimeServer (addrs : List IpAddr)
| NameServer (addrs : List IpAddr)
| DomainNameServer (addrs : List IpAddr)
| LogServer (addrs : List IpAddr)
| CookieServer (addrs : List IpAddr)
| LprServer (addrs : List IpAddr)
| ImpressServer (addrs : List IpAddr)
| ResourceLocationServer (addrs : List IpAddr)
| HostName (s : List Nat)
| BootFileSize (size : Nat)
| MeritDumpFile (s : List Nat)
| DomainName (s : List Nat)
| SwapServer (addr : IpAddr)
| RootPath (s : List Nat)
| ExtensionsPath (s : List Nat)
| IPForwarding (b : Bool)
| NonLocalSourceRouting (b : Bool)
| MaxDatagramReassemblySize (size : Nat)
| DefaultIpTtl (ttl : Nat)
| PathMtuAgingTimeout (timeout : Nat)
| PathMtuPlateauTable (sizes : List Nat)
| InterfaceMtu (mtu : Nat)
| AllSubnetsAreLocal (b : Bool)
| BroadcastAddress (addr : IpAddr)
| PerformMaskDiscovery (b : Bool)
| MaskSupplier (b : Bool)
| PerformRouterDiscovery (b : Bool)
| RouterSolicitationAddress (addr : IpAddr)
| StaticRoute (routes : List (IpAddr × IpAddr))
| TrailerEncapsulation (b : Bool)
| ArpCacheTimeout (timeout : Nat)
| EthernetEncapsulation (b : Bool)
| TcpDefaultTtl (ttl : Nat)
| TcpKeepaliveInterval (interval : Nat)
| TcpKeepaliveGarbage (b : Bool)
| NisDomain (s : List Nat)
| NetworkInformationServers (addrs : List IpAddr)
| NtpServers (addrs : List IpAddr)
| VendorExtensions (bytes : List Nat)
| NetBiosNameServers (addrs : List IpAddr)
| NetBiosDatagramDistributionServer (addrs : List IpAddr)
| NetBiosNodeType (t : NetBiosNodeTypes)
| NetBiosScope (s : List Nat)
| XFontServer (addrs : List IpAddr)
| XDisplayManager (addrs : List IpAddr)
| RequestedIpAddress (addr : IpAddr)
| IpAddressLeaseTime (time : Nat)
| OptionOverload (o : OptionOverloads)
| MessageType (t : DhcpMessageTypes)
| ServerIdentifier (addr : IpAddr)
| ParamRequestList (data : List Nat)
| Message (s : List Nat)
| MaxMessageSize (size : Nat)
| RelayAgentInformation (subs : List Option82.RelayAgentInformationSubOption)

/-- Is this option the End sentinel?  The engine's only equality test on
options is opt == DhcpOption::End, so only that equality needs to be
decidable. -/
def isEnd : DhcpOption → Bool
  | DhcpOption.End => true
  | _ => false

theorem isEnd_iff (o : DhcpOption) : isEnd o = true ↔ o = DhcpOption.End := by
  cases o <;> simp [isEnd]

instance (o : DhcpOption) : Decidable (o = DhcpOption.End) :=
  decidable_of_iff (isEnd o = true) (isEnd_iff o)

end Options

namespace Option82

open RelayAgentInformationSubOption

def u32_to_ip (a : Nat) : IpAddr := a

/-- The length_specific_string macro of option82.rs:
tag, then map_res!(sized_buffer, str::from_utf8). -/
def length_specific_string (t : Nat)
    (variant : List Nat → RelayAgentInformationSubOption) :
    P RelayAgentInformationSubOption :=
  pbind (tagP t) fun _ =>
  pbind (map_res sized_buffer from_utf8) fun s =>
  ppure (variant s)

/-- The single_ip macro of option82.rs: tag, ignored length byte, be_u32. -/
def single_ip (t : Nat) (variant : IpAddr → RelayAgentInformationSubOption) :
    P RelayAgentInformationSubOption :=
  pbind (tagP t) fun _ =>
  pbind be_u8 fun _length =>
  pbind be_u32 fun addr =>
  ppure (variant (u32_to_ip addr))

def agent_circuit_id : P RelayAgentInformationSubOption :=
  pbind (tagP 1) fun _ =>
  pbind (length_count be_u8 be_u8) fun data =>
  ppure (AgentCircuitID data)

def agent_remote_id : P RelayAgentInformationSubOption :=
  pbind (tagP 2) fun _ =>
  pbind (length_count be_u8 be_u8) fun data =>
  ppure (AgentRemoteID data)

def docsis_device_class : P RelayAgentInformationSubOption :=
  pbind (tagP 4) fun _ =>
  pbind be_u8 fun _ =>
  pbind be_i32 fun device_class =>
  ppure (DOCSISDeviceClass device_class)

def link_selection : P RelayAgentInformationSubOption :=
  single_ip 5 LinkSelection

def subscriber_id : P RelayAgentInformationSubOption :=
  length_specific_string 6 SubscriberID

def radius_attributes : P RelayAgentInformationSubOption :=
  pbind (tagP 7) fun _ =>
  pbind (length_count be_u8 be_u8) fun data =>
  ppure (RADIUSattributes data)

def authentication : P RelayAgentInformationSubOption :=
  pbind (tagP 8) fun _ =>
  pbind (length_count be_u8 be_u8) fun data =>
  ppure (Authentication data)

def vendor_specific_information : P RelayAgentInformationSubOption :=
  pbind (tagP 9) fun _ =>
  pbind (length_count be_u8 be_u8) fun data =>
  ppure (VendorSpecificInformation data)

def relay_agent_flags : P RelayAgentInformationSubOption :=
  pbind (tagP 10) fun _ =>
  pbind be_u8 fun _length =>
  pbind be_u8 fun relay_agent_flag =>
  ppure (RelayAgentFlags relay_agent_flag)

def server_identifier_override : P RelayAgentInformationSubOption :=
  pbind (tagP 11) fun _ =>
  pbind be_u8 fun _ =>
  pbind be_i32 fun identifier =>
  ppure (ServerIdentifierOverride identifier)

def dhcp_v4_virtual_subnet_selection : P RelayAgentInformationSubOption :=
  pbind (tagP 151) fun _ =>
  pbind (length_count be_u8 be_u8) fun data =>
  ppure (DHCPv4VirtualSubnetSelection data)

def dhcp_v4_virtual_subnet_selection_control :
    P RelayAgentInformationSubOption :=
  pbind (tagP 152) fun _ =>
  pbind (length_count be_u8 be_u8) fun data =>
  ppure (DHCPv4VirtualSubnetSelectionControl data)

/-- The alternation named option_82_parser in option82.rs (renamed here). -/
def option_82_one : P RelayAgentInformationSubOption :=
  palt agent_circuit_id
    (palt agent_remote_id
      (palt docsis_device_class
        (palt link_selection
          (palt subscriber_id
            (palt radius_attributes
              (palt authentication
                (palt vendor_specific_information
                  (palt relay_agent_flags
                    (palt server_identifier_override
                      (palt dhcp_v4_virtual_subnet_selection
                        dhcp_v4_virtual_subnet_selection_control))))))))))

theorem length_specific_string82_strict (t : Nat)
    (variant : List Nat → RelayAgentInformationSubOption) :
    Strict (length_specific_string t variant) :=
  pbind_strict (tagP_strict t) fun _ =>
    pbind_mono (map_res_mono sized_buffer_mono) fun _ => ppure_mono _

theorem single_ip82_strict (t : Nat)
    (variant : IpAddr → RelayAgentInformationSubOption) :
    Strict (single_ip t variant) :=
  pbind_strict (tagP_strict t) fun _ =>
    pbind_mono be_u8_mono fun _ =>
      pbind_mono be_u32_mono fun _ => ppure_mono _

theorem blob82_strict (t : Nat)
    (variant : List Nat → RelayAgentInformationSubOption) :
    Strict (pbind (tagP t) fun _ =>
      pbind (length_count be_u8 be_u8) fun data => ppure (variant data)) :=
  pbind_strict (tagP_strict t) fun _ =>
    pbind_mono (length_count_mono be_u8_mono be_u8_mono) fun _ => ppure_mono _

theorem option_82_one_strict : Strict option_82_one := by
  unfold option_82_one
  refine palt_strict (blob82_strict 1 _) ?_
  refine palt_strict (blob82_strict 2 _) ?_
  refine palt_strict ?_ ?_
  · exact pbind_strict (tagP_strict 4) fun _ =>
      pbind_mono be_u8_mono fun _ =>
        pbind_mono be_i32_mono fun _ => ppure_mono _
  refine palt_strict (single_ip82_strict 5 _) ?_
  refine palt_strict (length_specific_string82_strict 6 _) ?_
  refine palt_strict (blob82_strict 7 _) ?_
  refine palt_strict (blob82_strict 8 _) ?_
  refine palt_strict (blob82_strict 9 _) ?_
  refine palt_strict ?_ ?_
  · exact pbind_strict (tagP_strict 10) fun _ =>
      pbind_mono be_u8_mono fun _ =>
        pbind_mono be_u8_mono fun _ => ppure_mono _
  refine palt_strict ?_ ?_
  · exact pbind_strict (tagP_strict 11) fun _ =>
      pbind_mono be_u8_mono fun _ =>
        pbind_mono be_i32_mono fun _ => ppure_mono _
  exact palt_strict (blob82_strict 151 _) (blob82_strict 152 _)

/-- One pass of the while-let loop of option82.rs fn parse, starting from
the slice held in remaining; the accumulated vec is rendered as the
returned list.  Mirrors, in order: the 0|1|2 match arms (stop), the bounds
sanity check (stop), the Done branch (push, stop when fewer than 3 bytes
remain), and the recovery branch (skip 2 + length when strictly in
bounds, else stop). -/
def subLoop (u : List Nat) : List RelayAgentInformationSubOption :=
  if u.length ≤ 2 then []
  else if u.length < 2 + u.getD 1 0 then []
  else
    match hd : option_82_one u with
    | some (rest, opt) =>
        if rest.length < 3 then [opt]
        else opt :: subLoop rest
    | none =>
        if h : 2 < u.length ∧ 2 + u.getD 1 0 < u.length then
          subLoop (u.drop (2 + u.getD 1 0))
        else []
termination_by u.length
decreasing_by
  · exact option_82_one_strict u rest opt hd
  · simp only [List.length_drop]
    omega

/-- fn parse of option82.rs (the nested sub-option engine): unconditionally
Ok, the loop running only on a non-empty buffer. -/
def parse (bytes : List Nat) :
    Except CrateError (List RelayAgentInformationSubOption) :=
  Except.ok (if 0 < bytes.length then subLoop bytes else [])

/-- relay_agent_information_option_rfc3046: tag 82, then
map_res!(sized_buffer, parse). -/
def relay_agent_information_option_rfc3046 : P Options.DhcpOption :=
  pbind (tagP 82) fun _ =>
  pbind (map_res sized_buffer parse) fun data =>
  ppure (Options.DhcpOption.RelayAgentInformation data)

theorem relay_agent_information_option_rfc3046_strict :
    Strict relay_agent_information_option_rfc3046 :=
  pbind_strict (tagP_strict 82) fun _ =>
    pbind_mono (map_res_mono sized_buffer_mono) fun _ => ppure_mono _

end Option82

namespace Options

open DhcpOption

def u32_to_ip (a : Nat) : IpAddr := a

def many_ip_addrs (addrs : List Nat) : List IpAddr :=
  addrs.map fun a => u32_to_ip a

/-- ip_addr_pairs of parse.rs: map to addresses, partition by even/odd
position, and zip the two halves into (address, mask) pairs. -/
def ip_addr_pairs (addrs : List Nat) : List (IpAddr × IpAddr) :=
  let ips := ((addrs.map fun e => u32_to_ip e).enum.filter
    fun p => p.1 % 2 = 0).map fun p => p.2
  let masks := ((addrs.map fun e => u32_to_ip e).enum.filter
    fun p => p.1 % 2 = 1).map fun p => p.2
  ips.zip masks

/-- num_u16s of parse.rs: a length byte divided by 2. -/
def num_u16s : P Nat := fun bytes =>
  match be_u8 bytes with
  | some (i, o) => some (i, o / 2)
  | a => a

/-- num_u32s of parse.rs: a length byte divided by 4. -/
def num_u32s : P Nat := fun bytes =>
  match be_u8 bytes with
  | some (i, o) => some (i, o / 4)
  | a => a

/-- The ip_pairs macro of parse.rs. -/
def ip_pairs (t : Nat) (variant : List (IpAddr × IpAddr) → DhcpOption) :
    P DhcpOption :=
  pbind (tagP t) fun _ =>
  pbind (length_count num_u32s be_u32) fun addrs =>
  ppure (variant (ip_addr_pairs addrs))

/-- The many_ips macro of parse.rs: tag, then length_count!(num_u32s,
be_u32). -/
def many_ips (t : Nat) (variant : List IpAddr → DhcpOption) : P DhcpOption :=
  pbind (tagP t) fun _ =>
  pbind (length_count num_u32s be_u32) fun addrs =>
  ppure (variant (many_ip_addrs addrs))

/-- The length_specific_string macro of parse.rs. -/
def length_specific_string (t : Nat) (variant : List Nat → DhcpOption) :
    P DhcpOption :=
  pbind (tagP t) fun _ =>
  pbind (map_res sized_buffer from_utf8) fun s =>
  ppure (variant s)

/-- The single_ip macro of parse.rs: tag, ignored length byte, be_u32. -/
def single_ip (t : Nat) (variant : IpAddr → DhcpOption) : P DhcpOption :=
  pbind (tagP t) fun _ =>
  pbind be_u8 fun _length =>
  pbind be_u32 fun addr =>
  ppure (variant (u32_to_ip addr))

/-- The bool macro of parse.rs: tag, ignored length byte, one value byte
compared against 1. -/
def bool (t : Nat) (variant : Bool → DhcpOption) : P DhcpOption :=
  pbind (tagP t) fun _ =>
  pbind be_u8 fun _length =>
  pbind be_u8 fun val =>
  ppure (variant (val == 1))

/-- The from_primitive macro of parse.rs: tag, ignored length byte, then
map_opt!(be_u8, FromPrimitive::from_u8) for the given table. -/
def from_primitive {β : Type} (t : Nat) (table : Nat → Option β)
    (variant : β → DhcpOption) : P DhcpOption :=
  pbind (tagP t) fun _ =>
  pbind be_u8 fun _l =>
  pbind (map_opt be_u8 table) fun data =>
  ppure (variant data)

def subnet_mask : P DhcpOption := single_ip 1 SubnetMask

def time_offset : P DhcpOption :=
  pbind (tagP 2) fun _ =>
  pbind be_u8 fun _ =>
  pbind be_i32 fun time =>
  ppure (TimeOffset time)

def router : P DhcpOption := many_ips 3 Router

def time_server : P DhcpOption := many_ips 4 TimeServer

def name_server : P DhcpOption := many_ips 5 NameServer

def domain_name_server : P DhcpOption := many_ips 6 DomainNameServer

def log_server : P DhcpOption := many_ips 7 LogServer

def cookie_server : P DhcpOption := many_ips 8 CookieServer

def lpr_server : P DhcpOption := many_ips 9 LprServer

def impress_server : P DhcpOption := many_ips 10 ImpressServer

def resource_loc_server : P DhcpOption := many_ips 11 ResourceLocationServer

def hostname : P DhcpOption := length_specific_string 12 HostName

def boot_file_size : P DhcpOption :=
  pbind (tagP 13) fun _ =>
  pbind be_u8 fun _length =>
  pbind be_u16 fun s =>
  ppure (BootFileSize s)

def merit_dump_file : P DhcpOption := length_specific_string 14 MeritDumpFile

def domain_name : P DhcpOption := length_specific_string 15 DomainName

def swap_server : P DhcpOption := single_ip 16 SwapServer

def root_path : P DhcpOption := length_specific_string 17 RootPath

def extensions_path : P DhcpOption := length_specific_string 18 ExtensionsPath

/-- vendor_extensions_rfc1497: the alternation of the tag 0 / tag 255
sentinel parsers with the tag 1..18 parsers, in source order. -/
def vendor_extensions_rfc1497 : P DhcpOption :=
  palt (pbind (tagP 0) fun _ => ppure Pad)
    (palt (pbind (tagP 255) fun _ => ppure End)
      (palt subnet_mask
        (palt time_offset
          (palt router
            (palt time_server
              (palt name_server
                (palt domain_name_server
                  (palt log_server
                    (palt cookie_server
                      (palt lpr_server
                        (palt impress_server
                          (palt resource_loc_server
                            (palt hostname
                              (palt boot_file_size
                                (palt merit_dump_file
                                  (palt domain_name
                                    (palt swap_server
                                      (palt root_path
                                        extensions_path))))))))))))))))))

def ip_forwarding : P DhcpOption := bool 19 IPForwarding

def non_source_local_routing : P DhcpOption := bool 20 NonLocalSourceRouting

def max_datagram_reassembly_size : P DhcpOption :=
  pbind (tagP 22) fun _ =>
  pbind be_u8 fun _len =>
  pbind be_u16 fun aa =>
  ppure (MaxDatagramReassemblySize aa)

def default_ip_ttl : P DhcpOption :=
  pbind (tagP 23) fun _ =>
  pbind be_u8 fun _length =>
  pbind be_u8 fun ttl =>
  ppure (DefaultIpTtl ttl)

def path_mtu_aging_timeout : P DhcpOption :=
  pbind (tagP 24) fun _ =>
  pbind be_u8 fun _length =>
  pbind be_u32 fun timeout =>
  ppure (PathMtuAgingTimeout timeout)

def path_mtu_plateau_table : P DhcpOption :=
  pbind (tagP 25) fun _ =>
  pbind (length_count num_u16s be_u16) fun sizes =>
  ppure (PathMtuPlateauTable sizes)

def ip_layer_parameters_per_host : P DhcpOption :=
  palt ip_forwarding
    (palt non_source_local_routing
      (palt max_datagram_reassembly_size
        (palt default_ip_ttl
          (palt path_mtu_aging_timeout path_mtu_plateau_table))))

def interface_mtu : P DhcpOption :=
  pbind (tagP 26) fun _ =>
  pbind be_u8 fun _length =>
  pbind be_u16 fun mtu =>
  ppure (InterfaceMtu mtu)

def all_subnets_are_local : P DhcpOption := bool 27 AllSubnetsAreLocal

def broadcast_address : P DhcpOption := single_ip 28 BroadcastAddress

def perform_mask_discovery : P DhcpOption := bool 29 PerformMaskDiscovery

def mask_supplier : P DhcpOption := bool 30 MaskSupplier

def perform_router_discovery : P DhcpOption := bool 31 PerformRouterDiscovery

def router_solicitation_address : P DhcpOption :=
  single_ip 32 RouterSolicitationAddress

def static_route : P DhcpOption := ip_pairs 33 StaticRoute

def ip_layer_parameters_per_interface : P DhcpOption :=
  palt interface_mtu
    (palt all_subnets_are_local
      (palt broadcast_address
        (palt perform_mask_discovery
          (palt mask_supplier
            (palt perform_router_discovery
              (palt router_solicitation_address static_route))))))

def trailer_encapsulation : P DhcpOption := bool 34 TrailerEncapsulation

def arp_cache_timeout : P DhcpOption :=
  pbind (tagP 35) fun _ =>
  pbind be_u8 fun _length =>
  pbind be_u32 fun timeout =>
  ppure (ArpCacheTimeout timeout)

def ethernet_encapsulation : P DhcpOption := bool 36 EthernetEncapsulation

def link_layer_parameters_per_interface : P DhcpOption :=
  palt trailer_encapsulation
    (palt arp_cache_timeout ethernet_encapsulation)

def tcp_default_ttl : P DhcpOption :=
  pbind (tagP 37) fun _ =>
  pbind be_u8 fun _length =>
  pbind be_u8 fun ttl =>
  ppure (TcpDefaultTtl ttl)

def tcp_keepalive_interval : P DhcpOption :=
  pbind (tagP 38) fun _ =>
  pbind be_u8 fun _length =>
  pbind be_u32 fun interval =>
  ppure (TcpKeepaliveInterval interval)

def tcp_keepalive_garbage : P DhcpOption := bool 39 TcpKeepaliveGarbage

def tcp_parameters : P DhcpOption :=
  palt tcp_default_ttl
    (palt tcp_keepalive_interval tcp_keepalive_garbage)

def nis_domain : P DhcpOption := length_specific_string 40 NisDomain

def network_information_servers : P DhcpOption :=
  many_ips 41 NetworkInformationServers

def ntp_servers : P DhcpOption := many_ips 42 NtpServers

def vendor_extensions : P DhcpOption :=
  pbind (tagP 43) fun _ =>
  pbind (length_count be_u8 be_u8) fun bytes =>
  ppure (VendorExtensions bytes)

def net_bios_name_servers : P DhcpOption := many_ips 44 NetBiosNameServers

def net_bios_datagram_distribution_server : P DhcpOption :=
  many_ips 45 NetBiosDatagramDistributionServer

def net_bios_node_type : P DhcpOption :=
  pbind (tagP 46) fun _ =>
  pbind be_u8 fun _length =>
  pbind (map_opt be_u8 nodeTypeFromU8) fun data =>
  ppure (NetBiosNodeType data)

def net_bios_scope : P DhcpOption := length_specific_string 47 NetBiosScope

def xfont_server : P DhcpOption := many_ips 48 XFontServer

def xdisplay_manager : P DhcpOption := many_ips 49 XDisplayManager

def application_and_service_parameters : P DhcpOption :=
  palt nis_domain
    (palt network_information_servers
      (palt ntp_servers
        (palt vendor_extensions
          (palt net_bios_name_servers
            (palt net_bios_datagram_distribution_server
              (palt net_bios_node_type
                (palt net_bios_scope
                  (palt xfont_server xdisplay_manager))))))))

def requested_ip_address : P DhcpOption := single_ip 50 RequestedIpAddress

def ip_address_lease_time : P DhcpOption :=
  pbind (tagP 51) fun _ =>
  pbind be_u8 fun _length =>
  pbind be_u32 fun time =>
  ppure (IpAddressLeaseTime time)

def option_overload : P DhcpOption :=
  from_primitive 52 overloadFromU8 OptionOverload

def message_type : P DhcpOption :=
  from_primitive 53 messageTypeFromU8 MessageType

def server_identifier : P DhcpOption := single_ip 54 ServerIdentifier

def param_request_list : P DhcpOption :=
  pbind (tagP 55) fun _ =>
  pbind (length_count be_u8 be_u8) fun data =>
  ppure (ParamRequestList data)

def message : P DhcpOption := length_specific_string 56 Message

def max_message_size : P DhcpOption :=
  pbind (tagP 57) fun _ =>
  pbind be_u8 fun _l =>
  pbind be_u16 fun size_ =>
  ppure (MaxMessageSize size_)

def dhcp_extensions : P DhcpOption :=
  palt requested_ip_address
    (palt ip_address_lease_time
      (palt option_overload
        (palt message_type
          (palt server_identifier
            (palt param_request_list
              (palt message max_message_size))))))

/-- dhcp_option: the main alternation of parse.rs, in source order, ending
with the relay agent information parser of option82.rs. -/
def dhcp_option : P DhcpOption :=
  palt vendor_extensions_rfc1497
    (palt ip_layer_parameters_per_host
      (palt ip_layer_parameters_per_interface
        (palt link_layer_parameters_per_interface
          (palt tcp_parameters
            (palt application_and_service_parameters
              (palt dhcp_extensions
                Option82.relay_agent_information_option_rfc3046))))))

theorem num_u16s_mono : Mono num_u16s := by
  intro i i1 a h
  unfold num_u16s at h
  cases hb : be_u8 i with
  | none => rw [hb] at h; simp at h
  | some r =>
      rw [hb] at h
      obtain ⟨i2, o⟩ := r
      simp at h
      exact h.1 ▸ be_u8_mono i i2 o hb

theorem num_u32s_mono : Mono num_u32s := by
  intro i i1 a h
  unfold num_u32s at h
  cases hb : be_u8 i with
  | none => rw [hb] at h; simp at h
  | some r =>
      rw [hb] at h
      obtain ⟨i2, o⟩ := r
      simp at h
      exact h.1 ▸ be_u8_mono i i2 o hb

theorem single_ip_strict (t : Nat) (variant : IpAddr → DhcpOption) :
    Strict (single_ip t variant) :=
  pbind_strict (tagP_strict t) fun _ =>
    pbind_mono be_u8_mono fun _ =>
      pbind_mono be_u32_mono fun _ => ppure_mono _

theorem bool_strict (t : Nat) (variant : Bool → DhcpOption) :
    Strict (bool t variant) :=
  pbind_strict (tagP_strict t) fun _ =>
    pbind_mono be_u8_mono fun _ =>
      pbind_mono be_u8_mono fun _ => ppure_mono _

theorem many_ips_strict (t : Nat) (variant : List IpAddr → DhcpOption) :
    Strict (many_ips t variant) :=
  pbind_strict (tagP_strict t) fun _ =>
    pbind_mono (length_count_mono num_u32s_mono be_u32_mono) fun _ =>
      ppure_mono _

theorem ip_pairs_strict (t : Nat)
    (variant : List (IpAddr × IpAddr) → DhcpOption) :
    Strict (ip_pairs t variant) :=
  pbind_strict (tagP_strict t) fun _ =>
    pbind_mono (length_count_mono num_u32s_mono be_u32_mono) fun _ =>
      ppure_mono _

theorem length_specific_string_strict (t : Nat)
    (variant : List Nat → DhcpOption) :
    Strict (length_specific_string t variant) :=
  pbind_strict (tagP_strict t) fun _ =>
    pbind_mono (map_res_mono sized_buffer_mono) fun _ => ppure_mono _

theorem from_primitive_strict {β : Type} (t : Nat) (table : Nat → Option β)
    (variant : β → DhcpOption) : Strict (from_primitive t table variant) :=
  pbind_strict (tagP_strict t) fun _ =>
    pbind_mono be_u8_mono fun _ =>
      pbind_mono (map_opt_mono be_u8_mono) fun _ => ppure_mono _

/-- A parser of the shape tag, ignored length byte, big-endian u8 value
consumes at least the tag byte. -/
theorem tag_len_u8_strict (t : Nat) (variant : Nat → DhcpOption) :
    Strict (pbind (tagP t) fun _ =>
      pbind be_u8 fun _ => pbind be_u8 fun v => ppure (variant v)) :=
  pbind_strict (tagP_strict t) fun _ =>
    pbind_mono be_u8_mono fun _ =>
      pbind_mono be_u8_mono fun _ => ppure_mono _

/-- A parser of the shape tag, ignored length byte, big-endian u16 value
consumes at least the tag byte. -/
theorem tag_len_u16_strict (t : Nat) (variant : Nat → DhcpOption) :
    Strict (pbind (tagP t) fun _ =>
      pbind be_u8 fun _ => pbind be_u16 fun v => ppure (variant v)) :=
  pbind_strict (tagP_strict t) fun _ =>
    pbind_mono be_u8_mono fun _ =>
      pbind_mono be_u16_mono fun _ => ppure_mono _

/-- A parser of the shape tag, ignored length byte, big-endian u32 value
consumes at least the tag byte. -/
theorem tag_len_u32_strict (t : Nat) (variant : Nat → DhcpOption) :
    Strict (pbind (tagP t) fun _ =>
      pbind be_u8 fun _ => pbind be_u32 fun v => ppure (variant v)) :=
  pbind_strict (tagP_strict t) fun _ =>
    pbind_mono be_u8_mono fun _ =>
      pbind_mono be_u32_mono fun _ => ppure_mono _

/-- A parser of the shape tag, then length_count!(be_u8, be_u8) consumes at
least the tag byte. -/
theorem tag_bytes_strict (t : Nat) (variant : List Nat → DhcpOption) :
    Strict (pbind (tagP t) fun _ =>
      pbind (length_count be_u8 be_u8) fun data => ppure (variant data)) :=
  pbind_strict (tagP_strict t) fun _ =>
    pbind_mono (length_count_mono be_u8_mono be_u8_mono) fun _ => ppure_mono _

theorem time_offset_strict : Strict time_offset :=
  pbind_strict (tagP_strict 2) fun _ =>
    pbind_mono be_u8_mono fun _ =>
      pbind_mono be_i32_mono fun _ => ppure_mono _

theorem path_mtu_plateau_table_strict : Strict path_mtu_plateau_table :=
  pbind_strict (tagP_strict 25) fun _ =>
    pbind_mono (length_count_mono num_u16s_mono be_u16_mono) fun _ =>
      ppure_mono _

theorem vendor_extensions_rfc1497_strict : Strict vendor_extensions_rfc1497 := by
  unfold vendor_extensions_rfc1497
  refine palt_strict (pbind_strict (tagP_strict 0) fun _ => ppure_mono _) ?_
  refine palt_strict (pbind_strict (tagP_strict 255) fun _ => ppure_mono _) ?_
  refine palt_strict (single_ip_strict 1 _) ?_
  refine palt_strict time_offset_strict ?_
  refine palt_strict (many_ips_strict 3 _) ?_
  refine palt_strict (many_ips_strict 4 _) ?_
  refine palt_strict (many_ips_strict 5 _) ?_
  refine palt_strict (many_ips_strict 6 _) ?_
  refine palt_strict (many_ips_strict 7 _) ?_
  refine palt_strict (many_ips_strict 8 _) ?_
  refine palt_strict (many_ips_strict 9 _) ?_
  refine palt_strict (many_ips_strict 10 _) ?_
  refine palt_strict (many_ips_strict 11 _) ?_
  refine palt_strict (length_specific_string_strict 12 _) ?_
  refine palt_strict (tag_len_u16_strict 13 _) ?_
  refine palt_strict (length_specific_string_strict 14 _) ?_
  refine palt_strict (length_specific_string_strict 15 _) ?_
  refine palt_strict (single_ip_strict 16 _) ?_
  exact palt_strict (length_specific_string_strict 17 _)
    (length_specific_string_strict 18 _)

theorem ip_layer_parameters_per_host_strict :
    Strict ip_layer_parameters_per_host := by
  unfold ip_layer_parameters_per_host
  refine palt_strict (bool_strict 19 _) ?_
  refine palt_strict (bool_strict 20 _) ?_
  refine palt_strict (tag_len_u16_strict 22 _) ?_
  refine palt_strict (tag_len_u8_strict 23 _) ?_
  exact palt_strict (tag_len_u32_strict 24 _) path_mtu_plateau_table_strict

theorem ip_layer_parameters_per_interface_strict :
    Strict ip_layer_parameters_per_interface := by
  unfold ip_layer_parameters_per_interface
  refine palt_strict (tag_len_u16_strict 26 _) ?_
  refine palt_strict (bool_strict 27 _) ?_
  refine palt_strict (single_ip_strict 28 _) ?_
  refine palt_strict (bool_strict 29 _) ?_
  refine palt_strict (bool_strict 30 _) ?_
  refine palt_strict (bool_strict 31 _) ?_
  exact palt_strict (single_ip_strict 32 _) (ip_pairs_strict 33 _)

theorem link_layer_parameters_per_interface_strict :
    Strict link_layer_parameters_per_interface := by
  unfold link_layer_parameters_per_interface
  refine palt_strict (bool_strict 34 _) ?_
  exact palt_strict (tag_len_u32_strict 35 _) (bool_strict 36 _)

theorem tcp_parameters_strict : Strict tcp_parameters := by
  unfold tcp_parameters
  refine palt_strict (tag_len_u8_strict 37 _) ?_
  exact palt_strict (tag_len_u32_strict 38 _) (bool_strict 39 _)

theorem application_and_service_parameters_strict :
    Strict application_and_service_parameters := by
  unfold application_and_service_parameters
  refine palt_strict (length_specific_string_strict 40 _) ?_
  refine palt_strict (many_ips_strict 41 _) ?_
  refine palt_strict (many_ips_strict 42 _) ?_
  refine palt_strict (tag_bytes_strict 43 _) ?_
  refine palt_strict (many_ips_strict 44 _) ?_
  refine palt_strict (many_ips_strict 45 _) ?_
  refine palt_strict ?_ ?_
  · exact pbind_strict (tagP_strict 46) fun _ =>
      pbind_mono be_u8_mono fun _ =>
        pbind_mono (map_opt_mono be_u8_mono) fun _ => ppure_mono _
  refine palt_strict (length_specific_string_strict 47 _) ?_
  exact palt_strict (many_ips_strict 48 _) (many_ips_strict 49 _)

theorem dhcp_extensions_strict : Strict dhcp_extensions := by
  unfold dhcp_extensions
  refine palt_strict (single_ip_strict 50 _) ?_
  refine palt_strict (tag_len_u32_strict 51 _) ?_
  refine palt_strict (from_primitive_strict 52 _ _) ?_
  refine palt_strict (from_primitive_strict 53 _ _) ?_
  refine palt_strict (single_ip_strict 54 _) ?_
  refine palt_strict (tag_bytes_strict 55 _) ?_
  exact palt_strict (length_specific_string_strict 56 _)
    (tag_len_u16_strict 57 _)

/-- Any Done of the main alternation consumes at least one byte. -/
theorem dhcp_option_strict : Strict dhcp_option := by
  unfold dhcp_option
  refine palt_strict vendor_extensions_rfc1497_strict ?_
  refine palt_strict ip_layer_parameters_per_host_strict ?_
  refine palt_strict ip_layer_parameters_per_interface_strict ?_
  refine palt_strict link_layer_parameters_per_interface_strict ?_
  refine palt_strict tcp_parameters_strict ?_
  refine palt_strict application_and_service_parameters_strict ?_
  exact palt_strict dhcp_extensions_strict
    Option82.relay_agent_information_option_rfc3046_strict

/-- One pass of the while-let loop of parse.rs pub fn parse, starting from
the slice held in remaining; the accumulated vec is rendered as the
returned list.  Mirrors, in order: the length-0 arm (stop), the length-1
arm (stop unless the single byte is 0 or 255), the default arm's bounds
sanity check for non-sentinel first bytes (stop when 2 + length overruns),
the Done branch (push; stop on End or empty rest), and the recovery branch
(skip 2 + length when strictly in bounds, else stop). -/
def parseLoop (u : List Nat) : List DhcpOption :=
  if u.length = 0 then []
  else if u.length = 1 ∧ u.getD 0 0 ≠ 0 ∧ u.getD 0 0 ≠ 255 then []
  else if 2 ≤ u.length ∧ u.getD 0 0 ≠ 0 ∧ u.getD 0 0 ≠ 255 ∧
      u.length < 2 + u.getD 1 0 then []
  else
    match hd : dhcp_option u with
    | some (rest, opt) =>
        if opt = DhcpOption.End ∨ rest.length = 0 then [opt]
        else opt :: parseLoop rest
    | none =>
        if h : 2 < u.length ∧ 2 + u.getD 1 0 < u.length then
          parseLoop (u.drop (2 + u.getD 1 0))
        else []
termination_by u.length
decreasing_by
  · exact dhcp_option_strict u rest opt hd
  · simp only [List.length_drop]
    omega

/-- pub fn parse of parse.rs (the top-level engine): unconditionally Ok,
the loop running only on a non-empty buffer. -/
def parse (bytes : List Nat) : Except CrateError (List DhcpOption) :=
  Except.ok (if 0 < bytes.length then parseLoop bytes else [])

end Options

namespace Options

theorem parseLoop_nil : parseLoop [] = [] := by
  rw [parseLoop]
  simp

/-- Engine step, Done case: when the sanity checks pass and the record
parses, it is pushed; the loop stops on End or empty rest and otherwise
continues on the rest. -/
theorem parseLoop_done (u rest : List Nat) (opt : DhcpOption)
    (h1 : u.length ≠ 0)
    (h2 : ¬(u.length = 1 ∧ u.getD 0 0 ≠ 0 ∧ u.getD 0 0 ≠ 255))
    (h3 : ¬(2 ≤ u.length ∧ u.getD 0 0 ≠ 0 ∧ u.getD 0 0 ≠ 255 ∧
      u.length < 2 + u.getD 1 0))
    (hd : dhcp_option u = some (rest, opt)) :
    parseLoop u =
      if opt = DhcpOption.End ∨ rest.length = 0 then [opt]
      else opt :: parseLoop rest := by
  conv_lhs => rw [parseLoop]
  rw [if_neg h1, if_neg h2, if_neg h3]
  split
  · rename_i rest2 opt2 heq
    rw [hd] at heq
    injection heq with heq2
    injection heq2 with ha hb
    rw [ha, hb]
  · rename_i heq
    rw [hd] at heq
    exact absurd heq (by simp)

/-- Engine step, recovery case: when the sanity checks pass but the record
does not parse, the loop resumes after 2 + length bytes when that is
strictly in bounds and otherwise stops. -/
theorem parseLoop_fail (u : List Nat)
    (h1 : u.length ≠ 0)
    (h2 : ¬(u.length = 1 ∧ u.getD 0 0 ≠ 0 ∧ u.getD 0 0 ≠ 255))
    (h3 : ¬(2 ≤ u.length ∧ u.getD 0 0 ≠ 0 ∧ u.getD 0 0 ≠ 255 ∧
      u.length < 2 + u.getD 1 0))
    (hd : dhcp_option u = none) :
    parseLoop u =
      if 2 < u.length ∧ 2 + u.getD 1 0 < u.length then
        parseLoop (u.drop (2 + u.getD 1 0))
      else [] := by
  conv_lhs => rw [parseLoop]
  rw [if_neg h1, if_neg h2, if_neg h3]
  split
  · rename_i rest2 opt2 heq
    rw [hd] at heq
    exact absurd heq (by simp)
  · rename_i heq
    split
    · rfl
    · rfl

/-- Engine step, stop cases: an empty slice, a lone non-sentinel byte, or a
non-sentinel record whose declared length overruns the buffer all stop the
loop with nothing pushed. -/
theorem parseLoop_stop (u : List Nat)
    (h : u.length = 0 ∨ (u.length = 1 ∧ u.getD 0 0 ≠ 0 ∧ u.getD 0 0 ≠ 255) ∨
      (2 ≤ u.length ∧ u.getD 0 0 ≠ 0 ∧ u.getD 0 0 ≠ 255 ∧
        u.length < 2 + u.getD 1 0)) :
    parseLoop u = [] := by
  rw [parseLoop]
  rcases h with h | h | h
  · rw [if_pos h]
  · rw [if_neg (by omega)]
    rw [if_pos h]
  · rw [if_neg (by omega)]
    by_cases h2 : u.length = 1 ∧ u.getD 0 0 ≠ 0 ∧ u.getD 0 0 ≠ 255
    · rw [if_pos h2]
    · rw [if_neg h2, if_pos h]

end Options

namespace Option82

theorem subLoop_nil : subLoop [] = [] := by
  rw [subLoop]
  simp

/-- Nested engine step, Done case: the sub-option is pushed; the loop stops
when fewer than 3 bytes remain and otherwise continues. -/
theorem subLoop_done (u rest : List Nat)
    (opt : RelayAgentInformationSubOption)
    (h1 : ¬(u.length ≤ 2))
    (h2 : ¬(u.length < 2 + u.getD 1 0))
    (hd : option_82_one u = some (rest, opt)) :
    subLoop u = if rest.length < 3 then [opt] else opt :: subLoop rest := by
  conv_lhs => rw [subLoop]
  rw [if_neg h1, if_neg h2]
  split
  · rename_i rest2 opt2 heq
    rw [hd] at heq
    injection heq with heq2
    injection heq2 with ha hb
    rw [ha, hb]
  · rename_i heq
    rw [hd] at heq
    exact absurd heq (by simp)

/-- Nested engine step, recovery case. -/
theorem subLoop_fail (u : List Nat)
    (h1 : ¬(u.length ≤ 2))
    (h2 : ¬(u.length < 2 + u.getD 1 0))
    (hd : option_82_one u = none) :
    subLoop u =
      if 2 < u.length ∧ 2 + u.getD 1 0 < u.length then
        subLoop (u.drop (2 + u.getD 1 0))
      else [] := by
  conv_lhs => rw [subLoop]
  rw [if_neg h1, if_neg h2]
  split
  · rename_i rest2 opt2 heq
    rw [hd] at heq
    exact absurd heq (by simp)
  · rename_i heq
    split
    · rfl
    · rfl

/-- Nested engine step, stop cases: at most 2 remaining bytes, or a
declared length overrunning the sub-buffer. -/
theorem subLoop_stop (u : List Nat)
    (h : u.length ≤ 2 ∨ u.length < 2 + u.getD 1 0) :
    subLoop u = [] := by
  rw [subLoop]
  rcases h with h | h
  · rw [if_pos h]
  · by_cases h1 : u.length ≤ 2
    · rw [if_pos h1]
    · rw [if_neg h1, if_pos h]

end Option82

open Nom

/-- parse always wraps the loop result in Ok (parseLoop [] = [] makes the
non-empty guard invisible in the result). -/
theorem parse_eq_loop (u : List Nat) :
    Options.parse u = Except.ok (Options.parseLoop u) := by
  unfold Options.parse
  by_cases h : 0 < u.length
  · rw [if_pos h]
  · rw [if_neg h]
    have hnil : u = [] := by
      cases u
      · rfl
      · simp at h
    rw [hnil, Options.parseLoop_nil]

/-- The nested parse always wraps the loop result in Ok. -/
theorem parse82_eq_loop (u : List Nat) :
    Option82.parse u = Except.ok (Option82.subLoop u) := by
  unfold Option82.parse
  by_cases h : 0 < u.length
  · rw [if_pos h]
  · rw [if_neg h]
    have hnil : u = [] := by
      cases u
      · rfl
      · simp at h
    rw [hnil, Option82.subLoop_nil]

/-- count!(be_u32) with an available input succeeds, consuming exactly
4 bytes per element. -/
theorem pcount_be_u32_ok (n : Nat) :
    ∀ i : List Nat, 4 * n ≤ i.length →
    ∃ vals : List Nat,
      pcount be_u32 n i = some (i.drop (4 * n), vals) ∧ vals.length = n := by
  induction n with
  | zero =>
      intro i h
      exact ⟨[], by simp [pcount, ppure], rfl⟩
  | succ m ih =>
      intro i h
      match i with
      | [] => simp at h
      | [x] => simp at h; omega
      | [x, y] => simp at h; omega
      | [x, y, z] => simp at h; omega
      | a :: b :: c :: d :: r =>
          have hr : 4 * m ≤ r.length := by
            simp at h
            omega
          obtain ⟨vals, hv, hl⟩ := ih r hr
          refine ⟨(((a * 256 + b) * 256 + c) * 256 + d) :: vals, ?_,
            by simp [hl]⟩
          have hstep : pcount be_u32 (m + 1) (a :: b :: c :: d :: r) =
              pbind (pcount be_u32 m) (fun as =>
                ppure ((((a * 256 + b) * 256 + c) * 256 + d) :: as)) r := rfl
          rw [hstep, pbind, hv]
          have hdrop : (a :: b :: c :: d :: r).drop (4 * (m + 1)) =
              r.drop (4 * m) := by
            have h4 : 4 * (m + 1) = 4 * m + 4 := by ring
            rw [h4]
            rfl
          simp [ppure, hdrop]

/-- A record with first byte 82 and an in-bounds declared length decodes to
the relay agent information option carrying whatever the nested parse
produced on the value slice. -/
theorem relay_agent_done (n : Nat) (rest : List Nat)
    (subs : List Option82.RelayAgentInformationSubOption)
    (h : n ≤ rest.length)
    (hs : Option82.parse (rest.take n) = Except.ok subs) :
    Options.dhcp_option (82 :: n :: rest) =
      some (rest.drop n, Options.DhcpOption.RelayAgentInformation subs) := by
  have h82 : Options.dhcp_option (82 :: n :: rest) =
      Option82.relay_agent_information_option_rfc3046 (82 :: n :: rest) := rfl
  rw [h82]
  unfold Option82.relay_agent_information_option_rfc3046
  simp [pbind, tagP, map_res, sized_buffer, ppure, h, hs]

open Options Option82

/-- C1: a record whose tag is unknown or whose value fails shape validation
(the main alternation returns no result) but whose declared length is in
bounds contributes nothing to the output and decoding continues exactly
2 + length bytes later; in particular decoding
[0,254,4,192,168,1,1,0,255] yields [Pad, Pad, End]. -/
theorem C1_unknown_or_failing_record_resyncs :
    (∀ u : List Nat, Options.dhcp_option u = none →
      2 + u.getD 1 0 ≤ u.length →
      Options.parse u = Options.parse (u.drop (2 + u.getD 1 0)))
    ∧ Options.parse [0, 254, 4, 192, 168, 1, 1, 0, 255] =
        Except.ok [DhcpOption.Pad, DhcpOption.Pad, DhcpOption.End] := by
  constructor
  · intro u hfail hb
    match u with
    | [] => simp at hb
    | [b] => simp at hb
    | b :: c :: t =>
      have hgd : (b :: c :: t).getD 1 0 = c := rfl
      rw [hgd] at hb ⊢
      have hlc : (b :: c :: t).length = t.length + 2 := by simp
      have h3 : ¬(2 ≤ (b :: c :: t).length ∧ (b :: c :: t).getD 0 0 ≠ 0 ∧
          (b :: c :: t).getD 0 0 ≠ 255 ∧
          (b :: c :: t).length < 2 + (b :: c :: t).getD 1 0) := by
        rw [hgd]
        rintro ⟨-, -, -, h4⟩
        omega
      have hloop : parseLoop (b :: c :: t) =
          parseLoop ((b :: c :: t).drop (2 + c)) := by
        rw [parseLoop_fail (b :: c :: t) (by simp) (by simp) h3 hfail, hgd]
        split
        · rfl
        · rename_i hneg
          have hlen : (b :: c :: t).length ≤ 2 + c := by omega
          rw [List.drop_eq_nil_of_le hlen, parseLoop_nil]
      rw [parse_eq_loop, parse_eq_loop, hloop]
  · have s1 : parseLoop [0, 254, 4, 192, 168, 1, 1, 0, 255] =
        DhcpOption.Pad :: parseLoop [254, 4, 192, 168, 1, 1, 0, 255] := by
      rw [parseLoop_done [0, 254, 4, 192, 168, 1, 1, 0, 255]
        [254, 4, 192, 168, 1, 1, 0, 255] DhcpOption.Pad
        (by decide) (by decide) (by decide) rfl]
      rw [if_neg (by decide)]
    have s2 : parseLoop [254, 4, 192, 168, 1, 1, 0, 255] =
        parseLoop [0, 255] := by
      rw [parseLoop_fail [254, 4, 192, 168, 1, 1, 0, 255]
        (by decide) (by decide) (by decide) rfl]
      rw [if_pos (by decide)]
      rfl
    have s3 : parseLoop [0, 255] = DhcpOption.Pad :: parseLoop [255] := by
      rw [parseLoop_done [0, 255] [255] DhcpOption.Pad
        (by decide) (by decide) (by decide) rfl]
      rw [if_neg (by decide)]
    have s4 : parseLoop [255] = [DhcpOption.End] := by
      rw [parseLoop_done [255] [] DhcpOption.End
        (by decide) (by decide) (by decide) rfl]
      rw [if_pos (by decide)]
    rw [parse_eq_loop, s1, s2, s3, s4]

/-- Witness for C1: the unknown-tag record of the spec example, with its
declared length in bounds, resynchronizes onto the following [0,255]. -/
theorem C1_witness :
    Options.dhcp_option [254, 4, 192, 168, 1, 1, 0, 255] = none ∧
    2 + ([254, 4, 192, 168, 1, 1, 0, 255] : List Nat).getD 1 0 ≤
      ([254, 4, 192, 168, 1, 1, 0, 255] : List Nat).length ∧
    Options.parse [254, 4, 192, 168, 1, 1, 0, 255] =
      Options.parse [0, 255] :=
  ⟨rfl, by decide,
    C1_unknown_or_failing_record_resyncs.1
      [254, 4, 192, 168, 1, 1, 0, 255] rfl (by decide)⟩

/-- C2: a non-sentinel record whose declared length byte (up to 254/255)
overruns the buffer terminates the scan with no resynchronization; the
usize offset arithmetic cannot wrap and the already-decoded prefix is
returned (here, the contribution of the loop from the offending record on
is empty); in particular [0,12,10,1,255] decodes to [Pad] with the
trailing 255 never reached, and length bytes 254 and 255 behave the
same way. -/
theorem C2_overrunning_length_stops :
    (∀ u : List Nat, 2 ≤ u.length → u.getD 0 0 ≠ 0 → u.getD 0 0 ≠ 255 →
      u.length < 2 + u.getD 1 0 →
      Options.parse u = Except.ok [])
    ∧ Options.parse [0, 12, 10, 1, 255] = Except.ok [DhcpOption.Pad]
    ∧ Options.parse [0, 12, 254, 0, 0, 0, 0, 0, 255] =
        Except.ok [DhcpOption.Pad]
    ∧ Options.parse [0, 12, 255, 0, 0, 0, 0, 0, 255] =
        Except.ok [DhcpOption.Pad] := by
  refine ⟨?_, ?_, ?_, ?_⟩
  · intro u h2 hb0 hb255 hover
    rw [parse_eq_loop, parseLoop_stop u (Or.inr (Or.inr ⟨h2, hb0, hb255, hover⟩))]
  · have s1 : parseLoop [0, 12, 10, 1, 255] =
        DhcpOption.Pad :: parseLoop [12, 10, 1, 255] := by
      rw [parseLoop_done [0, 12, 10, 1, 255] [12, 10, 1, 255] DhcpOption.Pad
        (by decide) (by decide) (by decide) rfl]
      rw [if_neg (by decide)]
    have s2 : parseLoop [12, 10, 1, 255] = [] :=
      parseLoop_stop _ (Or.inr (Or.inr (by decide)))
    rw [parse_eq_loop, s1, s2]
  · have s1 : parseLoop [0, 12, 254, 0, 0, 0, 0, 0, 255] =
        DhcpOption.Pad :: parseLoop [12, 254, 0, 0, 0, 0, 0, 255] := by
      rw [parseLoop_done [0, 12, 254, 0, 0, 0, 0, 0, 255]
        [12, 254, 0, 0, 0, 0, 0, 255] DhcpOption.Pad
        (by decide) (by decide) (by decide) rfl]
      rw [if_neg (by decide)]
    have s2 : parseLoop [12, 254, 0, 0, 0, 0, 0, 255] = [] :=
      parseLoop_stop _ (Or.inr (Or.inr (by decide)))
    rw [parse_eq_loop, s1, s2]
  · have s1 : parseLoop [0, 12, 255, 0, 0, 0, 0, 0, 255] =
        DhcpOption.Pad :: parseLoop [12, 255, 0, 0, 0, 0, 0, 255] := by
      rw [parseLoop_done [0, 12, 255, 0, 0, 0, 0, 0, 255]
        [12, 255, 0, 0, 0, 0, 0, 255] DhcpOption.Pad
        (by decide) (by decide) (by decide) rfl]
      rw [if_neg (by decide)]
    have s2 : parseLoop [12, 255, 0, 0, 0, 0, 0, 255] = [] :=
      parseLoop_stop _ (Or.inr (Or.inr (by decide)))
    rw [parse_eq_loop, s1, s2]

/-- Witness for C2: a record declaring length 10 with only 2 value bytes
available terminates the scan with an empty contribution. -/
theorem C2_witness :
    2 ≤ ([12, 10, 1, 255] : List Nat).length ∧
    ([12, 10, 1, 255] : List Nat).getD 0 0 ≠ 0 ∧
    ([12, 10, 1, 255] : List Nat).getD 0 0 ≠ 255 ∧
    ([12, 10, 1, 255] : List Nat).length <
      2 + ([12, 10, 1, 255] : List Nat).getD 1 0 ∧
    Options.parse [12, 10, 1, 255] = Except.ok [] :=
  ⟨by decide, by decide, by decide, by decide,
    C2_overrunning_length_stops.1 [12, 10, 1, 255]
      (by decide) (by decide) (by decide) (by decide)⟩

/-- Counterexample to C3: a tag-51 (u32 lease time) record declaring
length 3 instead of 4 nevertheless decodes successfully — the fixed-width
decoders never compare the declared length with the shape's width, so the
record is emitted rather than failed and resynchronized past. -/
theorem C3_counterexample :
    Options.dhcp_option [51, 3, 0, 0, 4, 176] =
      some ([], DhcpOption.IpAddressLeaseTime 1200) ∧
    Options.parse [51, 3, 0, 0, 4, 176] =
      Except.ok [DhcpOption.IpAddressLeaseTime 1200] := by
  refine ⟨rfl, ?_⟩
  have s1 : parseLoop [51, 3, 0, 0, 4, 176] =
      [DhcpOption.IpAddressLeaseTime 1200] := by
    rw [parseLoop_done [51, 3, 0, 0, 4, 176] []
      (DhcpOption.IpAddressLeaseTime 1200)
      (by decide) (by decide) (by decide) rfl]
    rw [if_pos (by decide)]
  rw [parse_eq_loop, s1]

/-- C3 as amended: a fixed-width record (u8, u16, u32, i32 or a single
IPv4 address) reads its declared length byte but ignores its value — the
record decodes successfully whenever the shape's width in bytes follows
the length byte, reading the value big-endian and consuming exactly
2 + width bytes, whatever the declared length says.  Shown for tags 23
(u8), 13 (u16), 51 (u32), 2 (i32) and 1 (IPv4), for every length byte l. -/
theorem C3_amended_fixed_width_ignores_length :
    (∀ (l v : Nat) (rest : List Nat),
      Options.dhcp_option (23 :: l :: v :: rest) =
        some (rest, DhcpOption.DefaultIpTtl v)) ∧
    (∀ (l a b : Nat) (rest : List Nat),
      Options.dhcp_option (13 :: l :: a :: b :: rest) =
        some (rest, DhcpOption.BootFileSize (a * 256 + b))) ∧
    (∀ (l a b c d : Nat) (rest : List Nat),
      Options.dhcp_option (51 :: l :: a :: b :: c :: d :: rest) =
        some (rest, DhcpOption.IpAddressLeaseTime
          (((a * 256 + b) * 256 + c) * 256 + d))) ∧
    (∀ (l a b c d : Nat) (rest : List Nat),
      Options.dhcp_option (2 :: l :: a :: b :: c :: d :: rest) =
        some (rest, DhcpOption.TimeOffset
          (if ((a * 256 + b) * 256 + c) * 256 + d < 2147483648
           then ((((a * 256 + b) * 256 + c) * 256 + d : Nat) : Int)
           else ((((a * 256 + b) * 256 + c) * 256 + d : Nat) : Int) -
             4294967296))) ∧
    (∀ (l a b c d : Nat) (rest : List Nat),
      Options.dhcp_option (1 :: l :: a :: b :: c :: d :: rest) =
        some (rest, DhcpOption.SubnetMask
          (((a * 256 + b) * 256 + c) * 256 + d))) :=
  ⟨fun _ _ _ => rfl, fun _ _ _ _ => rfl, fun _ _ _ _ _ _ => rfl,
    fun _ _ _ _ _ _ => rfl, fun _ _ _ _ _ _ => rfl⟩

/-- Counterexample to C6: a boolean record (tag 19) with value byte 0 is
not a decode failure — it decodes to IPForwarding false, i.e. non-1 bytes
are silently coerced to false. -/
theorem C6_counterexample :
    Options.dhcp_option [19, 1, 0] =
      some ([], DhcpOption.IPForwarding false) ∧
    Options.parse [19, 1, 0] =
      Except.ok [DhcpOption.IPForwarding false] := by
  refine ⟨rfl, ?_⟩
  have s1 : parseLoop [19, 1, 0] = [DhcpOption.IPForwarding false] := by
    rw [parseLoop_done [19, 1, 0] [] (DhcpOption.IPForwarding false)
      (by decide) (by decide) (by decide) rfl]
    rw [if_pos (by decide)]
  rw [parse_eq_loop, s1]

/-- C6 as amended: a boolean record reads its declared length byte but
ignores it, then reads one value byte and yields true exactly when that
byte equals 1; every other byte value yields the option with value false
(silent coercion), never a decode failure.  Shown for tags 19, 27 and 39,
for every length byte l and value byte v. -/
theorem C6_amended_bool_coerces :
    (∀ (l v : Nat) (rest : List Nat),
      Options.dhcp_option (19 :: l :: v :: rest) =
        some (rest, DhcpOption.IPForwarding (v == 1))) ∧
    (∀ (l v : Nat) (rest : List Nat),
      Options.dhcp_option (27 :: l :: v :: rest) =
        some (rest, DhcpOption.AllSubnetsAreLocal (v == 1))) ∧
    (∀ (l v : Nat) (rest : List Nat),
      Options.dhcp_option (39 :: l :: v :: rest) =
        some (rest, DhcpOption.TcpKeepaliveGarbage (v == 1))) :=
  ⟨fun _ _ _ => rfl, fun _ _ _ => rfl, fun _ _ _ => rfl⟩

/-- Counterexample to C7: a tag-3 (router list) record declaring length 9
(not a multiple of 4) decodes successfully to two addresses, and a
declared length 0 (not positive) decodes successfully to an empty list. -/
theorem C7_counterexample :
    Options.parse [3, 9, 127, 0, 0, 1, 192, 168, 1, 1, 7] =
      Except.ok [DhcpOption.Router [2130706433, 3232235777]] ∧
    Options.parse [3, 0] = Except.ok [DhcpOption.Router []] := by
  constructor
  · have s1 : parseLoop [3, 9, 127, 0, 0, 1, 192, 168, 1, 1, 7] =
        DhcpOption.Router [2130706433, 3232235777] :: parseLoop [7] := by
      rw [parseLoop_done [3, 9, 127, 0, 0, 1, 192, 168, 1, 1, 7] [7]
        (DhcpOption.Router [2130706433, 3232235777])
        (by decide) (by decide) (by decide) rfl]
      rw [if_neg (by decide)]
    have s2 : parseLoop [7] = [] :=
      parseLoop_stop _ (Or.inr (Or.inl (by decide)))
    rw [parse_eq_loop, s1, s2]
  · have s1 : parseLoop [3, 0] = [DhcpOption.Router []] := by
      rw [parseLoop_done [3, 0] [] (DhcpOption.Router [])
        (by decide) (by decide) (by decide) rfl]
      rw [if_pos (by decide)]
    rw [parse_eq_loop, s1]

/-- C7 as amended: a repeated-IPv4-list record reads its declared length
byte l and emits floor(l/4) addresses in wire order, succeeding whenever
that many 4-byte groups follow; l need not be a positive multiple of 4
(l = 0 gives an empty list and remainder bytes are left unconsumed); in
particular [3,8,127,0,0,1,192,168,1,1] decodes to
[Router [127.0.0.1, 192.168.1.1]]. -/
theorem C7_amended_floor_division :
    (∀ (l : Nat) (rest : List Nat), 4 * (l / 4) ≤ rest.length →
      ∃ addrs : List IpAddr, addrs.length = l / 4 ∧
        Options.dhcp_option (3 :: l :: rest) =
          some (rest.drop (4 * (l / 4)), DhcpOption.Router addrs)) ∧
    Options.parse [3, 8, 127, 0, 0, 1, 192, 168, 1, 1] =
      Except.ok [DhcpOption.Router [2130706433, 3232235777]] := by
  constructor
  · intro l rest h
    obtain ⟨vals, hv, hl⟩ := pcount_be_u32_ok (l / 4) rest h
    refine ⟨many_ip_addrs vals, by simp [many_ip_addrs, hl], ?_⟩
    have hrouter : router (3 :: l :: rest) =
        some (rest.drop (4 * (l / 4)),
          DhcpOption.Router (many_ip_addrs vals)) := by
      unfold router many_ips
      simp [pbind, tagP, length_count, num_u32s, be_u8, ppure, hv]
    simp [dhcp_option, vendor_extensions_rfc1497, subnet_mask,
      Options.single_ip, time_offset, palt, pbind, ppure, tagP, be_u8,
      be_i32, be_u32, hrouter]
  · have s1 : parseLoop [3, 8, 127, 0, 0, 1, 192, 168, 1, 1] =
        [DhcpOption.Router [2130706433, 3232235777]] := by
      rw [parseLoop_done [3, 8, 127, 0, 0, 1, 192, 168, 1, 1] []
        (DhcpOption.Router [2130706433, 3232235777])
        (by decide) (by decide) (by decide) rfl]
      rw [if_pos (by decide)]
    rw [parse_eq_loop, s1]

/-- Witness for C7 as amended: length byte 9 yields floor(9/4) = 2
addresses over an 8-byte (plus remainder) value. -/
theorem C7_amended_witness :
    4 * (9 / 4 : Nat) ≤ ([127, 0, 0, 1, 192, 168, 1, 1, 7] : List Nat).length ∧
    ∃ addrs : List IpAddr, addrs.length = 9 / 4 ∧
      Options.dhcp_option (3 :: 9 :: [127, 0, 0, 1, 192, 168, 1, 1, 7]) =
        some (([127, 0, 0, 1, 192, 168, 1, 1, 7] : List Nat).drop (4 * (9 / 4)),
          DhcpOption.Router addrs) :=
  ⟨by decide, C7_amended_floor_division.1 9 [127, 0, 0, 1, 192, 168, 1, 1, 7]
    (by decide)⟩

/-- C4: inside a tag-82 payload, a sub-option record that does not parse
(unknown sub-tag or failing value) with an in-bounds declared length is
skipped, the nested scan continuing 2 + length bytes later; in particular
decoding [82,16, 150,6,0,1,2,3,4,5, 1,6,0,1,2,3,4,5] yields
RelayAgentInformation [AgentCircuitID [0,1,2,3,4,5]]. -/
theorem C4_nested_resync :
    (∀ u : List Nat, Option82.option_82_one u = none →
      2 + u.getD 1 0 ≤ u.length →
      Option82.subLoop u = Option82.subLoop (u.drop (2 + u.getD 1 0)))
    ∧ Options.parse [82, 16, 150, 6, 0, 1, 2, 3, 4, 5, 1, 6, 0, 1, 2, 3, 4, 5] =
        Except.ok [DhcpOption.RelayAgentInformation
          [RelayAgentInformationSubOption.AgentCircuitID [0, 1, 2, 3, 4, 5]]] := by
  constructor
  · intro u hfail hb
    match u with
    | [] => simp at hb
    | [b] => simp at hb
    | b :: c :: t =>
      have hgd : (b :: c :: t).getD 1 0 = c := rfl
      rw [hgd] at hb ⊢
      have hlc : (b :: c :: t).length = t.length + 2 := by simp
      by_cases hsmall : (b :: c :: t).length ≤ 2
      · have hc : c = 0 := by omega
        have ht : t = [] := by
          cases t
          · rfl
          · rename_i x xs
            simp only [List.length_cons] at hsmall
            exact absurd hsmall (by omega)
        rw [subLoop_stop _ (Or.inl hsmall), hc, ht]
        rw [show ([b, 0] : List Nat).drop 2 = [] from rfl, subLoop_nil]
      · have h2 : ¬((b :: c :: t).length < 2 + (b :: c :: t).getD 1 0) := by
          rw [hgd]
          omega
        rw [subLoop_fail (b :: c :: t) hsmall h2 hfail, hgd]
        split
        · rfl
        · rename_i hneg
          have hlen : (b :: c :: t).length ≤ 2 + c := by omega
          rw [List.drop_eq_nil_of_le hlen, subLoop_nil]
  · have hsub1 : subLoop [150, 6, 0, 1, 2, 3, 4, 5, 1, 6, 0, 1, 2, 3, 4, 5] =
        subLoop [1, 6, 0, 1, 2, 3, 4, 5] := by
      rw [subLoop_fail [150, 6, 0, 1, 2, 3, 4, 5, 1, 6, 0, 1, 2, 3, 4, 5]
        (by decide) (by decide) rfl]
      rw [if_pos (by decide)]
      rfl
    have hsub2 : subLoop [1, 6, 0, 1, 2, 3, 4, 5] =
        [RelayAgentInformationSubOption.AgentCircuitID [0, 1, 2, 3, 4, 5]] := by
      rw [subLoop_done [1, 6, 0, 1, 2, 3, 4, 5] []
        (RelayAgentInformationSubOption.AgentCircuitID [0, 1, 2, 3, 4, 5])
        (by decide) (by decide) rfl]
      rw [if_pos (by decide)]
    have hp82 : Option82.parse
        (List.take 16 [150, 6, 0, 1, 2, 3, 4, 5, 1, 6, 0, 1, 2, 3, 4, 5]) =
        Except.ok
          [RelayAgentInformationSubOption.AgentCircuitID [0, 1, 2, 3, 4, 5]] := by
      rw [parse82_eq_loop]
      rw [show List.take 16 [150, 6, 0, 1, 2, 3, 4, 5, 1, 6, 0, 1, 2, 3, 4, 5] =
        ([150, 6, 0, 1, 2, 3, 4, 5, 1, 6, 0, 1, 2, 3, 4, 5] : List Nat) from rfl]
      rw [hsub1, hsub2]
    have hd : Options.dhcp_option
        [82, 16, 150, 6, 0, 1, 2, 3, 4, 5, 1, 6, 0, 1, 2, 3, 4, 5] =
        some ([], DhcpOption.RelayAgentInformation
          [RelayAgentInformationSubOption.AgentCircuitID [0, 1, 2, 3, 4, 5]]) :=
      relay_agent_done 16 [150, 6, 0, 1, 2, 3, 4, 5, 1, 6, 0, 1, 2, 3, 4, 5]
        [RelayAgentInformationSubOption.AgentCircuitID [0, 1, 2, 3, 4, 5]]
        (by decide) hp82
    have s1 : parseLoop [82, 16, 150, 6, 0, 1, 2, 3, 4, 5, 1, 6, 0, 1, 2, 3, 4, 5] =
        [DhcpOption.RelayAgentInformation
          [RelayAgentInformationSubOption.AgentCircuitID [0, 1, 2, 3, 4, 5]]] := by
      rw [parseLoop_done
        [82, 16, 150, 6, 0, 1, 2, 3, 4, 5, 1, 6, 0, 1, 2, 3, 4, 5] []
        (DhcpOption.RelayAgentInformation
          [RelayAgentInformationSubOption.AgentCircuitID [0, 1, 2, 3, 4, 5]])
        (by decide) (by decide) (by decide) hd]
      rw [if_pos (by simp)]
    rw [parse_eq_loop, s1]

/-- Witness for C4: the unknown sub-tag 150 record with in-bounds declared
length 6 resynchronizes the nested scan onto the following sub-option. -/
theorem C4_witness :
    Option82.option_82_one [150, 6, 0, 1, 2, 3, 4, 5, 1, 6, 0, 1, 2, 3, 4, 5] =
      none ∧
    Option82.subLoop [150, 6, 0, 1, 2, 3, 4, 5, 1, 6, 0, 1, 2, 3, 4, 5] =
      Option82.subLoop [1, 6, 0, 1, 2, 3, 4, 5] :=
  ⟨rfl, C4_nested_resync.1 [150, 6, 0, 1, 2, 3, 4, 5, 1, 6, 0, 1, 2, 3, 4, 5]
    rfl (by decide)⟩

/-- Counterexample to C5: a sub-buffer consisting of exactly a known
sub-option tag and declared length 0 ([1,0], i.e. AgentCircuitID with an
empty payload) decodes to no sub-option at all — the nested engine stops
whenever fewer than 3 bytes remain, dropping the trailing record, both
when it is the whole sub-buffer and when it trails a decoded one. -/
theorem C5_counterexample :
    Option82.parse [1, 0] = Except.ok [] ∧
    Option82.parse [1, 6, 0, 1, 2, 3, 4, 5, 1, 0] =
      Except.ok [RelayAgentInformationSubOption.AgentCircuitID
        [0, 1, 2, 3, 4, 5]] := by
  constructor
  · rw [parse82_eq_loop, subLoop_stop [1, 0] (Or.inl (by decide))]
  · have s1 : subLoop [1, 6, 0, 1, 2, 3, 4, 5, 1, 0] =
        [RelayAgentInformationSubOption.AgentCircuitID [0, 1, 2, 3, 4, 5]] := by
      rw [subLoop_done [1, 6, 0, 1, 2, 3, 4, 5, 1, 0] [1, 0]
        (RelayAgentInformationSubOption.AgentCircuitID [0, 1, 2, 3, 4, 5])
        (by decide) (by decide) rfl]
      rw [if_pos (by decide)]
    rw [parse82_eq_loop, s1]

/-- C5 as amended: the nested relay-agent engine stops scanning whenever
fewer than 3 bytes remain (not 2): a sub-buffer of length at most 2
contributes nothing, and after a successful sub-option the scan stops,
keeping that sub-option but dropping any trailing record, whenever fewer
than 3 bytes follow — so a trailing 2-byte sub-option (known tag,
declared length 0) is dropped rather than decoded. -/
theorem C5_amended_stops_under_three :
    (∀ u : List Nat, u.length ≤ 2 → Option82.subLoop u = []) ∧
    (∀ (u rest : List Nat) (opt : RelayAgentInformationSubOption),
      ¬(u.length ≤ 2) → ¬(u.length < 2 + u.getD 1 0) →
      Option82.option_82_one u = some (rest, opt) → rest.length < 3 →
      Option82.subLoop u = [opt]) := by
  constructor
  · intro u h
    exact subLoop_stop u (Or.inl h)
  · intro u rest opt h1 h2 hd h3
    rw [subLoop_done u rest opt h1 h2 hd, if_pos h3]

/-- Witness for C5 as amended: the 2-byte sub-buffer [1,0] contributes
nothing, and the trailing [1,0] after a decoded AgentCircuitID is
dropped. -/
theorem C5_amended_witness :
    Option82.subLoop [1, 0] = [] ∧
    Option82.subLoop [1, 6, 0, 1, 2, 3, 4, 5, 1, 0] =
      [RelayAgentInformationSubOption.AgentCircuitID [0, 1, 2, 3, 4, 5]] :=
  ⟨C5_amended_stops_under_three.1 [1, 0] (by decide),
    C5_amended_stops_under_three.2 [1, 6, 0, 1, 2, 3, 4, 5, 1, 0] [1, 0]
      (RelayAgentInformationSubOption.AgentCircuitID [0, 1, 2, 3, 4, 5])
      (by decide) (by decide) rfl (by decide)⟩

/-- C8: the top-level decode returns Ok for every input buffer; corrupt or
truncated input only shortens the returned sequence, no error reaches the
caller. -/
theorem C8_parse_always_ok :
    ∀ bytes : List Nat, ∃ v, Options.parse bytes = Except.ok v :=
  fun _ => ⟨_, rfl⟩

/-- C9: decoding terminates because every Done of the record decoder, in
both the top-level and the nested alternation, consumes at least one byte,
and every recovery skip of 2 + length bytes strictly shrinks a non-empty
slice; these are exactly the facts by which both engine loops decrease. -/
theorem C9_every_iteration_consumes :
    (∀ (u rest : List Nat) (opt : DhcpOption),
      Options.dhcp_option u = some (rest, opt) → rest.length < u.length) ∧
    (∀ (u rest : List Nat) (opt : RelayAgentInformationSubOption),
      Option82.option_82_one u = some (rest, opt) → rest.length < u.length) ∧
    (∀ u : List Nat, u ≠ [] →
      (u.drop (2 + u.getD 1 0)).length < u.length) := by
  refine ⟨dhcp_option_strict, option_82_one_strict, ?_⟩
  intro u h
  have h0 : 0 < u.length := List.length_pos.mpr h
  simp only [List.length_drop]
  omega

/-- Witness for C9: one Done step of each alternation and one recovery
skip, each strictly consuming. -/
theorem C9_witness :
    (([] : List Nat).length < ([0] : List Nat).length) ∧
    (([] : List Nat).length < ([10, 1, 7] : List Nat).length) ∧
    (([5] : List Nat).drop (2 + ([5] : List Nat).getD 1 0)).length <
      ([5] : List Nat).length :=
  ⟨C9_every_iteration_consumes.1 [0] [] DhcpOption.Pad rfl,
    C9_every_iteration_consumes.2.1 [10, 1, 7] []
      (RelayAgentInformationSubOption.RelayAgentFlags 7) rfl,
    C9_every_iteration_consumes.2.2 [5] (by decide)⟩

/-- C10: a top-level record [82, n, value bytes] with its declared length
in bounds always decodes to a RelayAgentInformation option: the nested
parse returns Ok on every value slice, so malformed or unknown sub-option
content yields a (possibly empty) sub-option list, never a failure of the
outer record. -/
theorem C10_tag82_record_always_succeeds :
    ∀ (n : Nat) (rest : List Nat), n ≤ rest.length →
    ∃ subs, Option82.parse (rest.take n) = Except.ok subs ∧
      Options.dhcp_option (82 :: n :: rest) =
        some (rest.drop n, DhcpOption.RelayAgentInformation subs) := by
  intro n rest h
  exact ⟨Option82.subLoop (rest.take n), parse82_eq_loop _,
    relay_agent_done n rest _ h (parse82_eq_loop _)⟩

/-- Witness for C10: a tag-82 record whose payload is an unknown sub-tag
with an overrunning sub-length still decodes to a RelayAgentInformation
option. -/
theorem C10_witness :
    ∃ subs, Option82.parse (([150, 0, 9, 77] : List Nat).take 3) =
      Except.ok subs ∧
    Options.dhcp_option (82 :: 3 :: [150, 0, 9, 77]) =
      some (([150, 0, 9, 77] : List Nat).drop 3,
        DhcpOption.RelayAgentInformation subs) :=
  C10_tag82_record_always_succeeds 3 [150, 0, 9, 77] (by decide)
